import Mathlib

/-
Shallow embedding of the Sintrop smart-contract collection (education-content
registry, plant catalog, app store directory, whitepaper center, peace-pledge
ledger, test-reward tracker).

Modelling conventions:
* `uint256` is modelled as `Nat`.  Solidity >= 0.8 uses checked arithmetic, so
  a decrement (`x--`) that would underflow reverts the whole call; this is
  modelled explicitly with an `Except.error` result.  Counter increments are
  `Nat` additions (a counter bounded by the number of calls cannot reach
  `2^256` in any finite trace considered here).
* `address` is modelled as an opaque `Nat` token; `msg.sender` becomes an
  explicit `sender` argument, `block.number` an explicit argument.
* Solidity `string`/`bytes` validation measures encoded-byte length
  (`bytes(s).length`), modelled as `String.utf8ByteSize`.
* A Solidity `mapping` is a total function returning the zero value of the
  codomain for unset keys, exactly as the EVM storage does.
* A reverting call returns `Except.error msg` and produces no new state;
  `runCall` (the per-transaction semantics) keeps the pre-state in that case.
* Emitted events are modelled as a list appended to on each emit.
-/

/-- Byte length of a Solidity string: the length of its UTF-8 encoding,
exactly what `bytes(s).length` measures in the source. -/
def bytesLen (s : String) : Nat := s.utf8ByteSize

namespace FreeEducationCenter

/-- `enum VoteType { None, Upvote, Downvote }` from FreeEducationCenter.sol. -/
inductive VoteType
  | None
  | Upvote
  | Downvote
deriving DecidableEq, Repr

/-- `struct Content` from FreeEducationCenter.sol. -/
structure Content where
  id : Nat
  title : String
  description : String
  url : String
  photo : String
  upvotes : Nat
  downvotes : Nat
deriving DecidableEq, Repr

/-- The zero value of `Content`, what an unset mapping slot reads as. -/
def zeroContent : Content := ⟨0, "", "", "", "", 0, 0⟩

/-- Events emitted by FreeEducationCenter. -/
inductive Event
  | ContentPublished (id : Nat) (title : String) (publisher : Nat)
  | Voted (contentId : Nat) (voter : Nat) (voteType : VoteType)
deriving DecidableEq, Repr

/-- The contract storage of FreeEducationCenter:  `contentsCount`,
`mapping(uint256 => Content) contents`,
`mapping(uint256 => mapping(address => VoteType)) userVotes`,
plus the log of emitted events. -/
structure State where
  contentsCount : Nat
  contents : Nat → Content
  userVotes : Nat → Nat → VoteType
  events : List Event

/-- Freshly deployed contract: zero counter, all mapping slots zero. -/
def initialState : State :=
  { contentsCount := 0
    contents := fun _ => zeroContent
    userVotes := fun _ _ => VoteType.None
    events := [] }

/-- `addContent` from FreeEducationCenter.sol (lines 75-99): validates the
four string fields, pre-increments `contentsCount`, stores the new record
with zero tallies and emits `ContentPublished`. -/
def addContent (s : State) (sender : Nat)
    (_title _description _url _photo : String) : Except String State :=
  if ¬ (bytesLen _title > 0 ∧ bytesLen _title < 50) then
    .error "FEC: Title must be between 1 and 49 characters"
  else if ¬ (bytesLen _description > 0 ∧ bytesLen _description < 500) then
    .error "FEC: Description must be between 1 and 499 characters"
  else if ¬ (bytesLen _url > 0 ∧ bytesLen _url < 200) then
    .error "FEC: URL must be between 1 and 199 characters"
  else if ¬ (bytesLen _photo < 200) then
    .error "FEC: Photo URL must be less than 199 characters"
  else
    let newId := s.contentsCount + 1
    .ok { contentsCount := newId
          contents := fun i =>
            if i = newId then ⟨newId, _title, _description, _url, _photo, 0, 0⟩
            else s.contents i
          userVotes := s.userVotes
          events := s.events ++ [Event.ContentPublished newId _title sender] }

/-- The tally-reverting step of `vote` (lines 117-122): decrement the bucket
of the previous vote, if any.  Solidity >= 0.8 checked arithmetic makes a
decrement of a zero counter revert, modelled by the error case. -/
def decrementPrevious (c : Content) (existingVote : VoteType) :
    Except String Content :=
  if existingVote = VoteType.Upvote then
    if c.upvotes = 0 then .error "panic: arithmetic underflow"
    else .ok { c with upvotes := c.upvotes - 1 }
  else if existingVote = VoteType.Downvote then
    if c.downvotes = 0 then .error "panic: arithmetic underflow"
    else .ok { c with downvotes := c.downvotes - 1 }
  else .ok c

/-- `vote` from FreeEducationCenter.sol (lines 108-136): requires an existing
id and a non-`None` vote type; a repeated identical vote is a silent no-op
(no state change, no event); otherwise the previous vote's bucket is
decremented, the new one incremented, the vote map updated and `Voted`
emitted. -/
def vote (s : State) (sender : Nat) (_id : Nat) (_voteType : VoteType) :
    Except String State :=
  if ¬ (_id > 0 ∧ _id ≤ s.contentsCount) then
    .error "FEC: Content ID does not exist"
  else if ¬ (_voteType = VoteType.Upvote ∨ _voteType = VoteType.Downvote) then
    .error "FEC: Invalid vote type"
  else
    let contentToVote := s.contents _id
    let existingVote := s.userVotes _id sender
    if existingVote = _voteType then .ok s
    else
      match decrementPrevious contentToVote existingVote with
      | .error e => .error e
      | .ok c1 =>
        let c2 :=
          if _voteType = VoteType.Upvote then { c1 with upvotes := c1.upvotes + 1 }
          else { c1 with downvotes := c1.downvotes + 1 }
        .ok { s with
              contents := fun i => if i = _id then c2 else s.contents i
              userVotes := fun i v =>
                if i = _id ∧ v = sender then _voteType else s.userVotes i v
              events := s.events ++ [Event.Voted _id sender _voteType] }

/-- `hasMoreUpvotes` from FreeEducationCenter.sol (lines 143-146). -/
def hasMoreUpvotes (s : State) (_id : Nat) : Except String Bool :=
  if ¬ (_id > 0 ∧ _id ≤ s.contentsCount) then
    .error "FEC: Content ID does not exist"
  else .ok (decide ((s.contents _id).upvotes > (s.contents _id).downvotes))

/-- `getContent` from FreeEducationCenter.sol (lines 155-159). -/
def getContent (s : State) (_id : Nat) : Except String Content :=
  if ¬ (_id > 0 ∧ _id ≤ s.contentsCount) then
    .error "FEC: Content ID does not exist"
  else .ok (s.contents _id)

/-- An external call into the contract. -/
inductive Call
  | addContentCall (sender : Nat) (t d u p : String)
  | voteCall (sender _id : Nat) (vt : VoteType)

/-- Dispatch a call to the corresponding function. -/
def applyCall (s : State) : Call → Except String State
  | .addContentCall sender t d u p => addContent s sender t d u p
  | .voteCall sender _id vt => vote s sender _id vt

/-- Transaction semantics on the host ledger: a reverting call leaves the
storage exactly as it was. -/
def runCall (s : State) (c : Call) : State :=
  match applyCall s c with
  | .ok s' => s'
  | .error _ => s

/-- States reachable from deployment by successful calls. -/
inductive Reach : State → Prop
  | init : Reach initialState
  | stepAdd (s s' : State) (sender : Nat) (t d u p : String) :
      Reach s → addContent s sender t d u p = .ok s' → Reach s'
  | stepVote (s s' : State) (sender _id : Nat) (vt : VoteType) :
      Reach s → vote s sender _id vt = .ok s' → Reach s'

/-- The set of voters whose currently stored vote on `_id` is `Upvote`. -/
def upvoters (s : State) (_id : Nat) : Set Nat :=
  {v | s.userVotes _id v = VoteType.Upvote}

/-- The set of voters whose currently stored vote on `_id` is `Downvote`. -/
def downvoters (s : State) (_id : Nat) : Set Nat :=
  {v | s.userVotes _id v = VoteType.Downvote}

/-- Tally consistency: for every record the stored counters equal the number
of distinct voters currently in that category. -/
def tallyConsistent (s : State) : Prop :=
  ∀ _id, (upvoters s _id).Finite ∧ (downvoters s _id).Finite ∧
    (s.contents _id).upvotes = (upvoters s _id).ncard ∧
    (s.contents _id).downvotes = (downvoters s _id).ncard

/-- No votes are stored for ids beyond the counter. -/
def votesWithinRange (s : State) : Prop :=
  ∀ _id v, s.contentsCount < _id → s.userVotes _id v = VoteType.None

end FreeEducationCenter

namespace SintropAppStore

/-- `enum VoteType { None, Positive, Negative }` from SintropAppStore.sol. -/
inductive VoteType
  | None
  | Positive
  | Negative
deriving DecidableEq, Repr

/-- `struct DApp` from SintropAppStore.sol. -/
structure DApp where
  id : Nat
  publisher : Nat
  name : String
  description : String
  repositoryUrl : String
  externalLink : String
  contractAddresses : List Nat
  positiveVotes : Nat
  negativeVotes : Nat
deriving DecidableEq, Repr

/-- The zero value of `DApp`, what an unset mapping slot reads as. -/
def zeroDApp : DApp := ⟨0, 0, "", "", "", "", [], 0, 0⟩

/-- Events emitted by SintropAppStore. -/
inductive Event
  | DAppRegistered (dAppId : Nat) (name : String) (publisher : Nat)
  | DAppVoted (dAppId : Nat) (voter : Nat) (voteType : VoteType)
deriving DecidableEq, Repr

/-- The contract storage of SintropAppStore: `dAppsCount`,
`mapping(uint256 => DApp) dApps`,
`mapping(uint256 => mapping(address => VoteType)) dAppVotes`,
plus the log of emitted events. -/
structure State where
  dAppsCount : Nat
  dApps : Nat → DApp
  dAppVotes : Nat → Nat → VoteType
  events : List Event

/-- Freshly deployed contract. -/
def initialState : State :=
  { dAppsCount := 0
    dApps := fun _ => zeroDApp
    dAppVotes := fun _ _ => VoteType.None
    events := [] }

/-- `registerDApp` from SintropAppStore.sol (lines 74-105): validates the
fields (note the inclusive upper bounds `<=`), pre-increments `dAppsCount`,
stores the new DApp with zero tallies and emits `DAppRegistered`. -/
def registerDApp (s : State) (sender : Nat)
    (_name _description _repositoryUrl _externalLink : String)
    (_contractAddresses : List Nat) : Except String State :=
  if ¬ (bytesLen _name > 0 ∧ bytesLen _name ≤ 100) then
    .error "Name must be between 1 and 100 characters."
  else if ¬ (bytesLen _description > 0 ∧ bytesLen _description ≤ 1000) then
    .error "Description must be between 1 and 1000 characters."
  else if ¬ (bytesLen _repositoryUrl > 0 ∧ bytesLen _repositoryUrl ≤ 200) then
    .error "Repository URL must be between 1 and 200 characters."
  else if ¬ (bytesLen _externalLink > 0 ∧ bytesLen _externalLink ≤ 200) then
    .error "External link must be between 1 and 200 characters."
  else if ¬ (_contractAddresses.length > 0) then
    .error "Must include at least one contract address."
  else
    let newDAppId := s.dAppsCount + 1
    .ok { dAppsCount := newDAppId
          dApps := fun i =>
            if i = newDAppId then
              ⟨newDAppId, sender, _name, _description, _repositoryUrl,
               _externalLink, _contractAddresses, 0, 0⟩
            else s.dApps i
          dAppVotes := s.dAppVotes
          events := s.events ++ [Event.DAppRegistered newDAppId _name sender] }

/-- The tally-reverting step of `voteForDApp` (lines 126-131), with checked
arithmetic as in `FreeEducationCenter.decrementPrevious`. -/
def decrementPrevious (d : DApp) (existingVote : VoteType) :
    Except String DApp :=
  if existingVote = VoteType.Positive then
    if d.positiveVotes = 0 then .error "panic: arithmetic underflow"
    else .ok { d with positiveVotes := d.positiveVotes - 1 }
  else if existingVote = VoteType.Negative then
    if d.negativeVotes = 0 then .error "panic: arithmetic underflow"
    else .ok { d with negativeVotes := d.negativeVotes - 1 }
  else .ok d

/-- `voteForDApp` from SintropAppStore.sol (lines 114-145): requires an
existing id and a non-`None` vote type; a repeated identical vote is a silent
no-op; otherwise swap semantics apply and `DAppVoted` is emitted. -/
def voteForDApp (s : State) (sender : Nat) (_dAppId : Nat)
    (_voteType : VoteType) : Except String State :=
  if ¬ (_dAppId > 0 ∧ _dAppId ≤ s.dAppsCount) then
    .error "Invalid DApp ID."
  else if ¬ (_voteType = VoteType.Positive ∨ _voteType = VoteType.Negative) then
    .error "Invalid vote type."
  else
    let dappToVote := s.dApps _dAppId
    let existingVote := s.dAppVotes _dAppId sender
    if existingVote = _voteType then .ok s
    else
      match decrementPrevious dappToVote existingVote with
      | .error e => .error e
      | .ok d1 =>
        let d2 :=
          if _voteType = VoteType.Positive then
            { d1 with positiveVotes := d1.positiveVotes + 1 }
          else { d1 with negativeVotes := d1.negativeVotes + 1 }
        .ok { s with
              dApps := fun i => if i = _dAppId then d2 else s.dApps i
              dAppVotes := fun i v =>
                if i = _dAppId ∧ v = sender then _voteType else s.dAppVotes i v
              events := s.events ++ [Event.DAppVoted _dAppId sender _voteType] }

/-- `isDAppSustainable` from SintropAppStore.sol (lines 154-161). -/
def isDAppSustainable (s : State) (_dAppId : Nat) : Except String Bool :=
  if ¬ (_dAppId > 0 ∧ _dAppId ≤ s.dAppsCount) then
    .error "Invalid DApp ID."
  else .ok (decide ((s.dApps _dAppId).positiveVotes > (s.dApps _dAppId).negativeVotes))

/-- States reachable from deployment by successful calls. -/
inductive Reach : State → Prop
  | init : Reach initialState
  | stepRegister (s s' : State) (sender : Nat) (n d r e : String) (cs : List Nat) :
      Reach s → registerDApp s sender n d r e cs = .ok s' → Reach s'
  | stepVote (s s' : State) (sender _dAppId : Nat) (vt : VoteType) :
      Reach s → voteForDApp s sender _dAppId vt = .ok s' → Reach s'

/-- The set of voters whose currently stored vote on `_dAppId` is `Positive`. -/
def posVoters (s : State) (_dAppId : Nat) : Set Nat :=
  {v | s.dAppVotes _dAppId v = VoteType.Positive}

/-- The set of voters whose currently stored vote on `_dAppId` is `Negative`. -/
def negVoters (s : State) (_dAppId : Nat) : Set Nat :=
  {v | s.dAppVotes _dAppId v = VoteType.Negative}

/-- Tally consistency for the app store. -/
def tallyConsistent (s : State) : Prop :=
  ∀ _dAppId, (posVoters s _dAppId).Finite ∧ (negVoters s _dAppId).Finite ∧
    (s.dApps _dAppId).positiveVotes = (posVoters s _dAppId).ncard ∧
    (s.dApps _dAppId).negativeVotes = (negVoters s _dAppId).ncard

/-- No votes are stored for ids beyond the counter. -/
def votesWithinRange (s : State) : Prop :=
  ∀ _dAppId v, s.dAppsCount < _dAppId → s.dAppVotes _dAppId v = VoteType.None

end SintropAppStore

namespace GlobalPlantCatalog

/-- `enum VoteType { None, Upvote, Downvote }` from GlobalPlantCatalog.sol. -/
inductive VoteType
  | None
  | Upvote
  | Downvote
deriving DecidableEq, Repr

/-- `struct Plant` from GlobalPlantCatalog.sol. -/
structure Plant where
  id : Nat
  popularName : String
  scientificName : String
  taxonomy : String
  description : String
  photoHash : String
  creator : Nat
  createdAt : Nat
  upvotes : Nat
  downvotes : Nat
deriving DecidableEq, Repr

/-- The zero value of `Plant`. -/
def zeroPlant : Plant := ⟨0, "", "", "", "", "", 0, 0, 0, 0⟩

/-- Events emitted by GlobalPlantCatalog. -/
inductive Event
  | PlantAdded (plantId creator : Nat) (popularName scientificName : String)
      (createdAt : Nat)
  | Voted (plantId : Nat) (voter : Nat) (voteType : VoteType)
deriving DecidableEq, Repr

/-- The contract storage of GlobalPlantCatalog: `plants`, `userVotes`,
`creatorPlants`, `nextPlantId`, plus the event log. -/
structure State where
  plants : Nat → Plant
  userVotes : Nat → Nat → VoteType
  creatorPlants : Nat → List Nat
  nextPlantId : Nat
  events : List Event

/-- Freshly deployed contract. -/
def initialState : State :=
  { plants := fun _ => zeroPlant
    userVotes := fun _ _ => VoteType.None
    creatorPlants := fun _ => []
    nextPlantId := 0
    events := [] }

/-- `addPlant` from GlobalPlantCatalog.sol (lines 102-134): validates the
five string fields, stores the plant under the current `nextPlantId`
(use-then-increment, ids start at 0), records it under its creator and emits
`PlantAdded`.  `block.number` is the explicit `blockNumber` argument. -/
def addPlant (s : State) (sender blockNumber : Nat)
    (_popularName _scientificName _taxonomy _description _photoHash : String) :
    Except String State :=
  if ¬ (bytesLen _popularName > 0 ∧ bytesLen _popularName < 50) then
    .error "String must be between 1 and 49 characters"
  else if ¬ (bytesLen _scientificName > 0 ∧ bytesLen _scientificName < 100) then
    .error "String must be between 1 and 99 characters"
  else if ¬ (bytesLen _taxonomy > 0 ∧ bytesLen _taxonomy < 300) then
    .error "String must be between 1 and 299 characters"
  else if ¬ (bytesLen _description > 0 ∧ bytesLen _description < 300) then
    .error "String must be between 1 and 299 characters"
  else if ¬ (bytesLen _photoHash > 0 ∧ bytesLen _photoHash < 150) then
    .error "String must be between 1 and 149 characters"
  else
    let currentId := s.nextPlantId
    .ok { plants := fun i =>
            if i = currentId then
              ⟨currentId, _popularName, _scientificName, _taxonomy,
               _description, _photoHash, sender, blockNumber, 0, 0⟩
            else s.plants i
          userVotes := s.userVotes
          creatorPlants := fun a =>
            if a = sender then s.creatorPlants a ++ [currentId]
            else s.creatorPlants a
          nextPlantId := s.nextPlantId + 1
          events := s.events ++
            [Event.PlantAdded currentId sender _popularName _scientificName
              blockNumber] }

/-- The tally-reverting step of `vote` (lines 152-157), with checked
arithmetic. -/
def decrementPrevious (p : Plant) (existingVote : VoteType) :
    Except String Plant :=
  if existingVote = VoteType.Upvote then
    if p.upvotes = 0 then .error "panic: arithmetic underflow"
    else .ok { p with upvotes := p.upvotes - 1 }
  else if existingVote = VoteType.Downvote then
    if p.downvotes = 0 then .error "panic: arithmetic underflow"
    else .ok { p with downvotes := p.downvotes - 1 }
  else .ok p

/-- `vote` from GlobalPlantCatalog.sol (lines 143-171): requires an existing
plant id (`_plantId < nextPlantId`) and a non-`None` vote type; a repeated
identical vote is a silent no-op (the body is guarded by
`existingVote != _voteType`, there is no rejection); otherwise swap semantics
apply and `Voted` is emitted. -/
def vote (s : State) (sender : Nat) (_plantId : Nat) (_voteType : VoteType) :
    Except String State :=
  if ¬ (_plantId < s.nextPlantId) then
    .error "GPC: Plant ID does not exist"
  else if ¬ (_voteType = VoteType.Upvote ∨ _voteType = VoteType.Downvote) then
    .error "GPC: Invalid vote type"
  else
    let plantToVote := s.plants _plantId
    let existingVote := s.userVotes _plantId sender
    if existingVote = _voteType then .ok s
    else
      match decrementPrevious plantToVote existingVote with
      | .error e => .error e
      | .ok p1 =>
        let p2 :=
          if _voteType = VoteType.Upvote then { p1 with upvotes := p1.upvotes + 1 }
          else { p1 with downvotes := p1.downvotes + 1 }
        .ok { s with
              plants := fun i => if i = _plantId then p2 else s.plants i
              userVotes := fun i v =>
                if i = _plantId ∧ v = sender then _voteType else s.userVotes i v
              events := s.events ++ [Event.Voted _plantId sender _voteType] }

/-- `hasMoreUpvotes` from GlobalPlantCatalog.sol (lines 178-181). -/
def hasMoreUpvotes (s : State) (_plantId : Nat) : Except String Bool :=
  if ¬ (_plantId < s.nextPlantId) then
    .error "GPC: Plant ID does not exist"
  else .ok (decide ((s.plants _plantId).upvotes > (s.plants _plantId).downvotes))

/-- `getPlant` from GlobalPlantCatalog.sol (lines 183-186). -/
def getPlant (s : State) (_plantId : Nat) : Except String Plant :=
  if ¬ (_plantId < s.nextPlantId) then
    .error "Plant ID does not exist"
  else .ok (s.plants _plantId)

end GlobalPlantCatalog

namespace WhitepaperCenter

/-- `struct Whitepaper` from WhitepaperCenter.sol (the variant under
src/contracts, which has no voting). -/
structure Whitepaper where
  id : Nat
  title : String
  description : String
  url : String
deriving DecidableEq, Repr

/-- The zero value of `Whitepaper`. -/
def zeroWhitepaper : Whitepaper := ⟨0, "", "", ""⟩

/-- Events emitted by WhitepaperCenter. -/
inductive Event
  | WhitepaperPublished (id : Nat) (title : String) (publisher : Nat)
deriving DecidableEq, Repr

/-- The contract storage of WhitepaperCenter. -/
structure State where
  whitepapersCount : Nat
  whitepapers : Nat → Whitepaper
  events : List Event

/-- Freshly deployed contract. -/
def initialState : State :=
  { whitepapersCount := 0
    whitepapers := fun _ => zeroWhitepaper
    events := [] }

/-- `addWhitepaper` from WhitepaperCenter.sol (lines 51-72). -/
def addWhitepaper (s : State) (sender : Nat)
    (_title _description _url : String) : Except String State :=
  if ¬ (bytesLen _title > 0 ∧ bytesLen _title < 50) then
    .error "FEC: Title must be between 1 and 49 characters"
  else if ¬ (bytesLen _description > 0 ∧ bytesLen _description < 500) then
    .error "FEC: Description must be between 1 and 499 characters"
  else if ¬ (bytesLen _url > 0 ∧ bytesLen _url < 200) then
    .error "FEC: URL must be between 1 and 199 characters"
  else
    let newId := s.whitepapersCount + 1
    .ok { whitepapersCount := newId
          whitepapers := fun i =>
            if i = newId then ⟨newId, _title, _description, _url⟩
            else s.whitepapers i
          events := s.events ++ [Event.WhitepaperPublished newId _title sender] }

/-- `getWhitepaper` from WhitepaperCenter.sol (lines 82-86). -/
def getWhitepaper (s : State) (_id : Nat) : Except String Whitepaper :=
  if ¬ (_id > 0 ∧ _id ≤ s.whitepapersCount) then
    .error "FEC: Whitepaper ID does not exist"
  else .ok (s.whitepapers _id)

end WhitepaperCenter

namespace WhitepaperCenterVoting

/-- `enum VoteType { None, Upvote, Downvote }` from the WhitepaperCenter
variant with voting (src/unnamed/part_006). -/
inductive VoteType
  | None
  | Upvote
  | Downvote
deriving DecidableEq, Repr

/-- `struct Whitepaper` from the voting variant of WhitepaperCenter
(src/unnamed/part_006): includes vote counters. -/
structure Whitepaper where
  id : Nat
  title : String
  description : String
  url : String
  upvotes : Nat
  downvotes : Nat
deriving DecidableEq, Repr

/-- The zero value of `Whitepaper`. -/
def zeroWhitepaper : Whitepaper := ⟨0, "", "", "", 0, 0⟩

/-- The contract storage of the voting variant of WhitepaperCenter:
`whitepapersCount`, `whitepapers`, `hasPublished`, `userVotes`. -/
structure State where
  whitepapersCount : Nat
  whitepapers : Nat → Whitepaper
  hasPublished : Nat → Bool
  userVotes : Nat → Nat → VoteType

/-- The tally-reverting step of `vote` in the voting variant, with checked
arithmetic. -/
def decrementPrevious (c : Whitepaper) (existingVote : VoteType) :
    Except String Whitepaper :=
  if existingVote = VoteType.Upvote then
    if c.upvotes = 0 then .error "panic: arithmetic underflow"
    else .ok { c with upvotes := c.upvotes - 1 }
  else if existingVote = VoteType.Downvote then
    if c.downvotes = 0 then .error "panic: arithmetic underflow"
    else .ok { c with downvotes := c.downvotes - 1 }
  else .ok c

/-- `vote` from the voting variant of WhitepaperCenter
(src/unnamed/part_006, lines 103-130): same silent-no-op swap semantics as
FreeEducationCenter (this variant emits no vote event). -/
def vote (s : State) (sender : Nat) (_id : Nat) (_voteType : VoteType) :
    Except String State :=
  if ¬ (_id > 0 ∧ _id ≤ s.whitepapersCount) then
    .error "Whitepaper ID does not exist"
  else if ¬ (_voteType = VoteType.Upvote ∨ _voteType = VoteType.Downvote) then
    .error "Invalid vote type"
  else
    let contentToVote := s.whitepapers _id
    let existingVote := s.userVotes _id sender
    if existingVote = _voteType then .ok s
    else
      match decrementPrevious contentToVote existingVote with
      | .error e => .error e
      | .ok c1 =>
        let c2 :=
          if _voteType = VoteType.Upvote then { c1 with upvotes := c1.upvotes + 1 }
          else { c1 with downvotes := c1.downvotes + 1 }
        .ok { s with
              whitepapers := fun i => if i = _id then c2 else s.whitepapers i
              userVotes := fun i v =>
                if i = _id ∧ v = sender then _voteType else s.userVotes i v }

end WhitepaperCenterVoting

namespace HumansPeaceTreaty

/-- `struct Signature` from HumansPeaceTreaty.sol. -/
structure Signature where
  hasSigned : Bool
  lastProofBlock : Nat
deriving DecidableEq, Repr

/-- The zero value of `Signature`. -/
def zeroSignature : Signature := ⟨false, 0⟩

/-- Events emitted by HumansPeaceTreaty. -/
inductive Event
  | PledgeSigned (signer blockNumber : Nat)
  | CommitmentProven (prover blockNumber : Nat)
deriving DecidableEq, Repr

/-- The contract storage of HumansPeaceTreaty: `pledges` and
`totalSignatures`, plus the event log. -/
structure State where
  pledges : Nat → Signature
  totalSignatures : Nat
  events : List Event

/-- Freshly deployed contract. -/
def initialState : State :=
  { pledges := fun _ => zeroSignature
    totalSignatures := 0
    events := [] }

/-- `signPeacePledge` from HumansPeaceTreaty.sol (lines 67-80): rejects a
caller who has already signed, otherwise records the signature, increments
`totalSignatures` and emits `PledgeSigned`. -/
def signPeacePledge (s : State) (sender blockNumber : Nat) :
    Except String State :=
  if (s.pledges sender).hasSigned then
    .error "HumansPeaceTreaty: You have already signed this pledge."
  else
    .ok { pledges := fun a =>
            if a = sender then ⟨true, blockNumber⟩ else s.pledges a
          totalSignatures := s.totalSignatures + 1
          events := s.events ++ [Event.PledgeSigned sender blockNumber] }

/-- `proveCommitment` from HumansPeaceTreaty.sol (lines 88-100): requires a
prior signature, then only refreshes `lastProofBlock` and emits
`CommitmentProven`. -/
def proveCommitment (s : State) (sender blockNumber : Nat) :
    Except String State :=
  if ¬ (s.pledges sender).hasSigned then
    .error "HumansPeaceTreaty: You must sign the pledge first before proving commitment."
  else
    .ok { s with
          pledges := fun a =>
            if a = sender then { s.pledges a with lastProofBlock := blockNumber }
            else s.pledges a
          events := s.events ++ [Event.CommitmentProven sender blockNumber] }

/-- `hasSigned` view from HumansPeaceTreaty.sol (lines 107-110). -/
def hasSigned (s : State) (account : Nat) : Bool :=
  (s.pledges account).hasSigned

/-- States reachable from deployment by successful calls. -/
inductive Reach : State → Prop
  | init : Reach initialState
  | stepSign (s s' : State) (sender blockNumber : Nat) :
      Reach s → signPeacePledge s sender blockNumber = .ok s' → Reach s'
  | stepProve (s s' : State) (sender blockNumber : Nat) :
      Reach s → proveCommitment s sender blockNumber = .ok s' → Reach s'

/-- The set of addresses whose pledge currently has `hasSigned = true`. -/
def signers (s : State) : Set Nat := {a | (s.pledges a).hasSigned = true}

end HumansPeaceTreaty

namespace RcTestReward

/-- `struct AuditReport` from RcTestReward.sol. -/
structure AuditReport where
  transactionCount : Nat
  description : String
  reportHash : String
  tester : Nat
  blockNumber : Nat
deriving DecidableEq, Repr

/-- The zero value of `AuditReport`. -/
def zeroReport : AuditReport := ⟨0, "", "", 0, 0⟩

/-- `REWARD_PER_TRANSACTION` constant from RcTestReward.sol (line 30). -/
def REWARD_PER_TRANSACTION : Nat := 100

/-- `MAX_TRANSACTIONS_PER_TESTER` constant from RcTestReward.sol (line 33). -/
def MAX_TRANSACTIONS_PER_TESTER : Nat := 1000

/-- The contract storage of RcTestReward: the immutables `startBlock` and
`endBlock` set by the constructor, `auditReports` and the private
`_hasSubmittedReport` mapping. -/
structure State where
  startBlock : Nat
  endBlock : Nat
  auditReports : Nat → AuditReport
  hasSubmittedReport : Nat → Bool

/-- The constructor of RcTestReward (lines 55-58): `startBlock` is the deploy
block, `endBlock` is `deploy block + durationInBlocks`. -/
def deployState (deployBlock durationInBlocks : Nat) : State :=
  { startBlock := deployBlock
    endBlock := deployBlock + durationInBlocks
    auditReports := fun _ => zeroReport
    hasSubmittedReport := fun _ => false }

/-- `submitAuditReport` from RcTestReward.sol (lines 74-93): requires the
testing period to be active, one submission per address, and a transaction
count in `1..MAX_TRANSACTIONS_PER_TESTER`; then stores the report. -/
def submitAuditReport (s : State) (sender blockNumber : Nat)
    (_transactionCount : Nat) (_description _reportHash : String) :
    Except String State :=
  if ¬ (blockNumber ≤ s.endBlock) then
    .error "RcTestReward: Testing period has ended."
  else if s.hasSubmittedReport sender then
    .error "RcTestReward: Report already submitted."
  else if ¬ (_transactionCount > 0) then
    .error "RcTestReward: Transaction count must be positive."
  else if ¬ (_transactionCount ≤ MAX_TRANSACTIONS_PER_TESTER) then
    .error "RcTestReward: Transaction count exceeds maximum limit."
  else
    .ok { s with
          hasSubmittedReport := fun a =>
            if a = sender then true else s.hasSubmittedReport a
          auditReports := fun a =>
            if a = sender then
              ⟨_transactionCount, _description, _reportHash, sender, blockNumber⟩
            else s.auditReports a }

/-- `getOwedTokens` from RcTestReward.sol (lines 115-117). -/
def getOwedTokens (s : State) (_tester : Nat) : Nat :=
  (s.auditReports _tester).transactionCount * REWARD_PER_TRANSACTION

/-- States reachable from some deployment by successful calls. -/
inductive Reach : State → Prop
  | deploy (deployBlock durationInBlocks : Nat) :
      Reach (deployState deployBlock durationInBlocks)
  | stepSubmit (s s' : State) (sender blockNumber tc : Nat) (d h : String) :
      Reach s → submitAuditReport s sender blockNumber tc d h = .ok s' →
      Reach s'

/-- Transaction semantics for `submitAuditReport`: a reverting call leaves
the storage exactly as it was. -/
def runSubmit (s : State) (sender blockNumber tc : Nat) (d h : String) :
    State :=
  match submitAuditReport s sender blockNumber tc d h with
  | .ok s' => s'
  | .error _ => s

/-- Per-address report invariant: either no report was submitted (flag false,
zero report) or the flag is set and the stored transaction count is in
`1..MAX_TRANSACTIONS_PER_TESTER`. -/
def reportInvariant (s : State) : Prop :=
  ∀ a, (s.hasSubmittedReport a = false ∧ s.auditReports a = zeroReport) ∨
    (s.hasSubmittedReport a = true ∧
      1 ≤ (s.auditReports a).transactionCount ∧
      (s.auditReports a).transactionCount ≤ MAX_TRANSACTIONS_PER_TESTER)

end RcTestReward

/-! ### Concrete states used by witnesses and counterexamples -/

/-- Education center after one valid insert (id 1). -/
def fecOne : FreeEducationCenter.State :=
  FreeEducationCenter.runCall FreeEducationCenter.initialState
    (FreeEducationCenter.Call.addContentCall 5 "Test" "Desc" "URL" "")

/-- `fecOne` after voter 7 upvotes content 1. -/
def fecOneVoted : FreeEducationCenter.State :=
  FreeEducationCenter.runCall fecOne
    (FreeEducationCenter.Call.voteCall 7 1 FreeEducationCenter.VoteType.Upvote)

/-- App store after one valid registration (id 1). -/
def appOne : SintropAppStore.State :=
  match SintropAppStore.registerDApp SintropAppStore.initialState 5
      "Name" "Desc" "Repo" "Link" [11] with
  | .ok s => s
  | .error _ => SintropAppStore.initialState

/-- `appOne` after voter 7 votes Positive on DApp 1. -/
def appOneVoted : SintropAppStore.State :=
  match SintropAppStore.voteForDApp appOne 7 1 SintropAppStore.VoteType.Positive with
  | .ok s => s
  | .error _ => appOne

/-- A voting-variant whitepaper state: one paper (id 1) on which voter 7 has
an `Upvote` stored, with the matching tally. -/
def wpcvOne : WhitepaperCenterVoting.State :=
  { whitepapersCount := 1
    whitepapers := fun i =>
      if i = 1 then ⟨1, "T", "D", "U", 1, 0⟩
      else WhitepaperCenterVoting.zeroWhitepaper
    hasPublished := fun _ => false
    userVotes := fun i v =>
      if i = 1 ∧ v = 7 then WhitepaperCenterVoting.VoteType.Upvote
      else WhitepaperCenterVoting.VoteType.None }

/-- Plant catalog after one valid `addPlant` (plant id 0). -/
def gpcOne : GlobalPlantCatalog.State :=
  match GlobalPlantCatalog.addPlant GlobalPlantCatalog.initialState 3 10
      "Rosewood" "Cariniana legalis" "Lecythidaceae" "A large tree"
      "ipfs-hash" with
  | .ok s => s
  | .error _ => GlobalPlantCatalog.initialState

/-- `gpcOne` after voter 1 upvotes plant 0. -/
def gpcVoted : GlobalPlantCatalog.State :=
  match GlobalPlantCatalog.vote gpcOne 1 0 GlobalPlantCatalog.VoteType.Upvote with
  | .ok s => s
  | .error _ => gpcOne

/-- Peace treaty after address 7 signs at block 5. -/
def hptOne : HumansPeaceTreaty.State :=
  match HumansPeaceTreaty.signPeacePledge HumansPeaceTreaty.initialState 7 5 with
  | .ok s => s
  | .error _ => HumansPeaceTreaty.initialState

/-- `hptOne` after address 7 proves commitment at block 9. -/
def hptProved : HumansPeaceTreaty.State :=
  match HumansPeaceTreaty.proveCommitment hptOne 7 9 with
  | .ok s => s
  | .error _ => hptOne

/-- Reward tracker deployed at block 100 with a 50-block duration. -/
def rcDeployed : RcTestReward.State := RcTestReward.deployState 100 50

/-- `rcDeployed` after tester 7 submits a report of 10 transactions at
block 120. -/
def rcOne : RcTestReward.State :=
  match RcTestReward.submitAuditReport rcDeployed 7 120 10 "summary" "hash" with
  | .ok s => s
  | .error _ => rcDeployed

/-! ### Helper theorems: invariant preservation -/

namespace FreeEducationCenter

/-- A successful `vote` preserves tally consistency and the vote range
invariant. -/
theorem vote_preserves_tally (s s' : State) (sender _id : Nat) (vt : VoteType)
    (h : vote s sender _id vt = .ok s')
    (h1 : tallyConsistent s) (h2 : votesWithinRange s) :
    tallyConsistent s' ∧ votesWithinRange s' := by
  unfold vote at h
  by_cases hc1 : ¬(_id > 0 ∧ _id ≤ s.contentsCount)
  · rw [if_pos hc1] at h; exact absurd h (by simp)
  rw [if_neg hc1] at h
  by_cases hc2 : ¬(vt = VoteType.Upvote ∨ vt = VoteType.Downvote)
  · rw [if_pos hc2] at h; exact absurd h (by simp)
  rw [if_neg hc2] at h
  simp only at h
  by_cases heq : s.userVotes _id sender = vt
  · rw [if_pos heq] at h
    obtain rfl : s = s' := by injection h
    exact ⟨h1, h2⟩
  rw [if_neg heq] at h
  push_neg at hc1
  push_neg at hc2
  obtain ⟨hid0, hidle⟩ := hc1
  cases hdec : decrementPrevious (s.contents _id) (s.userVotes _id sender) with
  | error e => rw [hdec] at h; exact absurd h (by simp)
  | ok c1 =>
    rw [hdec] at h
    simp only [Except.ok.injEq] at h
    have hcnt : s'.contentsCount = s.contentsCount := by rw [← h]
    have hcts : ∀ i, s'.contents i =
        if i = _id then
          (if vt = VoteType.Upvote then { c1 with upvotes := c1.upvotes + 1 }
           else { c1 with downvotes := c1.downvotes + 1 })
        else s.contents i := fun i => by rw [← h]
    have huv : ∀ i v, s'.userVotes i v =
        if i = _id ∧ v = sender then vt else s.userVotes i v := fun i v => by
      rw [← h]
    clear h
    have hwr : votesWithinRange s' := by
      intro j v hjgt
      rw [hcnt] at hjgt
      have hjne : j ≠ _id := by omega
      rw [huv]
      simp only [hjne, false_and, if_false]
      exact h2 j v hjgt
    refine ⟨?_, hwr⟩
    intro j
    by_cases hj : j = _id
    case neg =>
      have hU : upvoters s' j = upvoters s j := by
        ext v; simp [upvoters, huv, hj]
      have hD : downvoters s' j = downvoters s j := by
        ext v; simp [downvoters, huv, hj]
      obtain ⟨hUf, hDf, hUc, hDc⟩ := h1 j
      rw [hU, hD, hcts, if_neg hj]
      exact ⟨hUf, hDf, hUc, hDc⟩
    case pos =>
    subst hj
    obtain ⟨hUf, hDf, hUc, hDc⟩ := h1 j
    rcases hc2 with rfl | rfl
    · -- vt = Upvote
      have hU : upvoters s' j = insert sender (upvoters s j) := by
        ext v; by_cases hv : v = sender <;> simp [upvoters, huv, hv]
      have hD : downvoters s' j = downvoters s j \ {sender} := by
        ext v; by_cases hv : v = sender <;> simp [downvoters, huv, hv]
      have hsnotU : sender ∉ upvoters s j := by
        simp only [upvoters, Set.mem_setOf_eq]; exact heq
      cases hprev : s.userVotes j sender with
      | Upvote => exact absurd hprev heq
      | None =>
        rw [hprev] at hdec
        simp [decrementPrevious] at hdec
        subst hdec
        have hsnotD : sender ∉ downvoters s j := by
          simp [downvoters, hprev]
        refine ⟨?_, ?_, ?_, ?_⟩
        · rw [hU]; exact hUf.insert sender
        · rw [hD]; exact hDf.diff _
        · rw [hcts, if_pos rfl, hU,
            Set.ncard_insert_of_not_mem hsnotU hUf]
          simp [hUc]
        · rw [hcts, if_pos rfl, hD, Set.diff_singleton_eq_self hsnotD]
          simp [hDc]
      | Downvote =>
        rw [hprev] at hdec
        rw [decrementPrevious] at hdec
        simp only [reduceCtorEq, if_false, if_true, reduceIte] at hdec
        split at hdec
        · exact absurd hdec (by simp)
        case isFalse hdz =>
        simp only [Except.ok.injEq] at hdec
        subst hdec
        have hsmemD : sender ∈ downvoters s j := by
          simp [downvoters, hprev]
        refine ⟨?_, ?_, ?_, ?_⟩
        · rw [hU]; exact hUf.insert sender
        · rw [hD]; exact hDf.diff _
        · rw [hcts, if_pos rfl, hU,
            Set.ncard_insert_of_not_mem hsnotU hUf]
          simp [hUc]
        · rw [hcts, if_pos rfl, hD,
            Set.ncard_diff_singleton_of_mem hsmemD hDf]
          simp [hDc]
    · -- vt = Downvote
      have hU : upvoters s' j = upvoters s j \ {sender} := by
        ext v; by_cases hv : v = sender <;> simp [upvoters, huv, hv]
      have hD : downvoters s' j = insert sender (downvoters s j) := by
        ext v; by_cases hv : v = sender <;> simp [downvoters, huv, hv]
      have hsnotD : sender ∉ downvoters s j := by
        simp only [downvoters, Set.mem_setOf_eq]; exact heq
      cases hprev : s.userVotes j sender with
      | Downvote => exact absurd hprev heq
      | None =>
        rw [hprev] at hdec
        simp [decrementPrevious] at hdec
        subst hdec
        have hsnotU : sender ∉ upvoters s j := by
          simp [upvoters, hprev]
        refine ⟨?_, ?_, ?_, ?_⟩
        · rw [hU]; exact hUf.diff _
        · rw [hD]; exact hDf.insert sender
        · rw [hcts, if_pos rfl, hU, Set.diff_singleton_eq_self hsnotU]
          simp [hUc]
        · rw [hcts, if_pos rfl, hD,
            Set.ncard_insert_of_not_mem hsnotD hDf]
          simp [hDc]
      | Upvote =>
        rw [hprev] at hdec
        rw [decrementPrevious] at hdec
        simp only [reduceCtorEq, if_false, if_true, reduceIte] at hdec
        split at hdec
        · exact absurd hdec (by simp)
        case isFalse hdz =>
        simp only [Except.ok.injEq] at hdec
        subst hdec
        have hsmemU : sender ∈ upvoters s j := by
          simp [upvoters, hprev]
        refine ⟨?_, ?_, ?_, ?_⟩
        · rw [hU]; exact hUf.diff _
        · rw [hD]; exact hDf.insert sender
        · rw [hcts, if_pos rfl, hU,
            Set.ncard_diff_singleton_of_mem hsmemU hUf]
          simp [hUc]
        · rw [hcts, if_pos rfl, hD,
            Set.ncard_insert_of_not_mem hsnotD hDf]
          simp [hDc]

/-- A successful `addContent` preserves tally consistency and the vote range
invariant. -/
theorem addContent_preserves_tally (s s' : State) (sender : Nat)
    (t d u p : String) (h : addContent s sender t d u p = .ok s')
    (h1 : tallyConsistent s) (h2 : votesWithinRange s) :
    tallyConsistent s' ∧ votesWithinRange s' := by
  unfold addContent at h
  split at h
  · exact absurd h (by simp)
  split at h
  · exact absurd h (by simp)
  split at h
  · exact absurd h (by simp)
  split at h
  · exact absurd h (by simp)
  simp only [Except.ok.injEq] at h
  have hcnt : s'.contentsCount = s.contentsCount + 1 := by rw [← h]
  have hcts : ∀ i, s'.contents i =
      if i = s.contentsCount + 1 then
        ⟨s.contentsCount + 1, t, d, u, p, 0, 0⟩
      else s.contents i := fun i => by rw [← h]
  have huv : ∀ i v, s'.userVotes i v = s.userVotes i v := fun i v => by
    rw [← h]
  clear h
  constructor
  · intro j
    have hU : upvoters s' j = upvoters s j := by ext v; simp [upvoters, huv]
    have hD : downvoters s' j = downvoters s j := by
      ext v; simp [downvoters, huv]
    obtain ⟨hUf, hDf, hUc, hDc⟩ := h1 j
    by_cases hj : j = s.contentsCount + 1
    · have hUe : upvoters s j = ∅ := by
        ext v; simp [upvoters, h2 j v (by omega)]
      have hDe : downvoters s j = ∅ := by
        ext v; simp [downvoters, h2 j v (by omega)]
      rw [hU, hD, hcts, if_pos hj, hUe, hDe]
      simp
    · rw [hU, hD, hcts, if_neg hj]
      exact ⟨hUf, hDf, hUc, hDc⟩
  · intro j v hjgt
    rw [hcnt] at hjgt
    rw [huv]
    exact h2 j v (by omega)

/-- Both invariants hold in the initial state. -/
theorem initialState_tally_invariant :
    tallyConsistent initialState ∧ votesWithinRange initialState := by
  constructor
  · intro j
    have hU : upvoters initialState j = ∅ := by
      ext v; simp [upvoters, initialState]
    have hD : downvoters initialState j = ∅ := by
      ext v; simp [downvoters, initialState]
    rw [hU, hD]
    simp [initialState, zeroContent]
  · intro j v _
    rfl

/-- Every reachable state satisfies both invariants. -/
theorem reach_tally_invariant (s : State) (hr : Reach s) :
    tallyConsistent s ∧ votesWithinRange s := by
  induction hr with
  | init => exact initialState_tally_invariant
  | stepAdd s s' sender t d u p _ h ih =>
    exact addContent_preserves_tally s s' sender t d u p h ih.1 ih.2
  | stepVote s s' sender _id vt _ h ih =>
    exact vote_preserves_tally s s' sender _id vt h ih.1 ih.2

end FreeEducationCenter

namespace SintropAppStore

/-- A successful `voteForDApp` preserves tally consistency and the vote range
invariant. -/
theorem voteForDApp_preserves_tally (s s' : State) (sender _dAppId : Nat)
    (vt : VoteType) (h : voteForDApp s sender _dAppId vt = .ok s')
    (h1 : tallyConsistent s) (h2 : votesWithinRange s) :
    tallyConsistent s' ∧ votesWithinRange s' := by
  unfold voteForDApp at h
  by_cases hc1 : ¬(_dAppId > 0 ∧ _dAppId ≤ s.dAppsCount)
  · rw [if_pos hc1] at h; exact absurd h (by simp)
  rw [if_neg hc1] at h
  by_cases hc2 : ¬(vt = VoteType.Positive ∨ vt = VoteType.Negative)
  · rw [if_pos hc2] at h; exact absurd h (by simp)
  rw [if_neg hc2] at h
  simp only at h
  by_cases heq : s.dAppVotes _dAppId sender = vt
  · rw [if_pos heq] at h
    obtain rfl : s = s' := by injection h
    exact ⟨h1, h2⟩
  rw [if_neg heq] at h
  push_neg at hc1
  push_neg at hc2
  obtain ⟨hid0, hidle⟩ := hc1
  cases hdec : decrementPrevious (s.dApps _dAppId) (s.dAppVotes _dAppId sender) with
  | error e => rw [hdec] at h; exact absurd h (by simp)
  | ok d1 =>
    rw [hdec] at h
    simp only [Except.ok.injEq] at h
    have hcnt : s'.dAppsCount = s.dAppsCount := by rw [← h]
    have hcts : ∀ i, s'.dApps i =
        if i = _dAppId then
          (if vt = VoteType.Positive then
            { d1 with positiveVotes := d1.positiveVotes + 1 }
           else { d1 with negativeVotes := d1.negativeVotes + 1 })
        else s.dApps i := fun i => by rw [← h]
    have huv : ∀ i v, s'.dAppVotes i v =
        if i = _dAppId ∧ v = sender then vt else s.dAppVotes i v := fun i v => by
      rw [← h]
    clear h
    have hwr : votesWithinRange s' := by
      intro j v hjgt
      rw [hcnt] at hjgt
      have hjne : j ≠ _dAppId := by omega
      rw [huv]
      simp only [hjne, false_and, if_false]
      exact h2 j v hjgt
    refine ⟨?_, hwr⟩
    intro j
    by_cases hj : j = _dAppId
    case neg =>
      have hU : posVoters s' j = posVoters s j := by
        ext v; simp [posVoters, huv, hj]
      have hD : negVoters s' j = negVoters s j := by
        ext v; simp [negVoters, huv, hj]
      obtain ⟨hUf, hDf, hUc, hDc⟩ := h1 j
      rw [hU, hD, hcts, if_neg hj]
      exact ⟨hUf, hDf, hUc, hDc⟩
    case pos =>
    subst hj
    obtain ⟨hUf, hDf, hUc, hDc⟩ := h1 j
    rcases hc2 with rfl | rfl
    · -- vt = Positive
      have hU : posVoters s' j = insert sender (posVoters s j) := by
        ext v; by_cases hv : v = sender <;> simp [posVoters, huv, hv]
      have hD : negVoters s' j = negVoters s j \ {sender} := by
        ext v; by_cases hv : v = sender <;> simp [negVoters, huv, hv]
      have hsnotU : sender ∉ posVoters s j := by
        simp only [posVoters, Set.mem_setOf_eq]; exact heq
      cases hprev : s.dAppVotes j sender with
      | Positive => exact absurd hprev heq
      | None =>
        rw [hprev] at hdec
        simp [decrementPrevious] at hdec
        subst hdec
        have hsnotD : sender ∉ negVoters s j := by
          simp [negVoters, hprev]
        refine ⟨?_, ?_, ?_, ?_⟩
        · rw [hU]; exact hUf.insert sender
        · rw [hD]; exact hDf.diff _
        · rw [hcts, if_pos rfl, hU,
            Set.ncard_insert_of_not_mem hsnotU hUf]
          simp [hUc]
        · rw [hcts, if_pos rfl, hD, Set.diff_singleton_eq_self hsnotD]
          simp [hDc]
      | Negative =>
        rw [hprev] at hdec
        rw [decrementPrevious] at hdec
        simp only [reduceCtorEq, if_false, if_true, reduceIte] at hdec
        split at hdec
        · exact absurd hdec (by simp)
        case isFalse hdz =>
        simp only [Except.ok.injEq] at hdec
        subst hdec
        have hsmemD : sender ∈ negVoters s j := by
          simp [negVoters, hprev]
        refine ⟨?_, ?_, ?_, ?_⟩
        · rw [hU]; exact hUf.insert sender
        · rw [hD]; exact hDf.diff _
        · rw [hcts, if_pos rfl, hU,
            Set.ncard_insert_of_not_mem hsnotU hUf]
          simp [hUc]
        · rw [hcts, if_pos rfl, hD,
            Set.ncard_diff_singleton_of_mem hsmemD hDf]
          simp [hDc]
    · -- vt = Negative
      have hU : posVoters s' j = posVoters s j \ {sender} := by
        ext v; by_cases hv : v = sender <;> simp [posVoters, huv, hv]
      have hD : negVoters s' j = insert sender (negVoters s j) := by
        ext v; by_cases hv : v = sender <;> simp [negVoters, huv, hv]
      have hsnotD : sender ∉ negVoters s j := by
        simp only [negVoters, Set.mem_setOf_eq]; exact heq
      cases hprev : s.dAppVotes j sender with
      | Negative => exact absurd hprev heq
      | None =>
        rw [hprev] at hdec
        simp [decrementPrevious] at hdec
        subst hdec
        have hsnotU : sender ∉ posVoters s j := by
          simp [posVoters, hprev]
        refine ⟨?_, ?_, ?_, ?_⟩
        · rw [hU]; exact hUf.diff _
        · rw [hD]; exact hDf.insert sender
        · rw [hcts, if_pos rfl, hU, Set.diff_singleton_eq_self hsnotU]
          simp [hUc]
        · rw [hcts, if_pos rfl, hD,
            Set.ncard_insert_of_not_mem hsnotD hDf]
          simp [hDc]
      | Positive =>
        rw [hprev] at hdec
        rw [decrementPrevious] at hdec
        simp only [reduceCtorEq, if_false, if_true, reduceIte] at hdec
        split at hdec
        · exact absurd hdec (by simp)
        case isFalse hdz =>
        simp only [Except.ok.injEq] at hdec
        subst hdec
        have hsmemU : sender ∈ posVoters s j := by
          simp [posVoters, hprev]
        refine ⟨?_, ?_, ?_, ?_⟩
        · rw [hU]; exact hUf.diff _
        · rw [hD]; exact hDf.insert sender
        · rw [hcts, if_pos rfl, hU,
            Set.ncard_diff_singleton_of_mem hsmemU hUf]
          simp [hUc]
        · rw [hcts, if_pos rfl, hD,
            Set.ncard_insert_of_not_mem hsnotD hDf]
          simp [hDc]

/-- A successful `registerDApp` preserves tally consistency and the vote
range invariant. -/
theorem registerDApp_preserves_tally (s s' : State) (sender : Nat)
    (n d r e : String) (cs : List Nat)
    (h : registerDApp s sender n d r e cs = .ok s')
    (h1 : tallyConsistent s) (h2 : votesWithinRange s) :
    tallyConsistent s' ∧ votesWithinRange s' := by
  unfold registerDApp at h
  split at h
  · exact absurd h (by simp)
  split at h
  · exact absurd h (by simp)
  split at h
  · exact absurd h (by simp)
  split at h
  · exact absurd h (by simp)
  split at h
  · exact absurd h (by simp)
  simp only [Except.ok.injEq] at h
  have hcnt : s'.dAppsCount = s.dAppsCount + 1 := by rw [← h]
  have hcts : ∀ i, s'.dApps i =
      if i = s.dAppsCount + 1 then
        ⟨s.dAppsCount + 1, sender, n, d, r, e, cs, 0, 0⟩
      else s.dApps i := fun i => by rw [← h]
  have huv : ∀ i v, s'.dAppVotes i v = s.dAppVotes i v := fun i v => by
    rw [← h]
  clear h
  constructor
  · intro j
    have hU : posVoters s' j = posVoters s j := by ext v; simp [posVoters, huv]
    have hD : negVoters s' j = negVoters s j := by
      ext v; simp [negVoters, huv]
    obtain ⟨hUf, hDf, hUc, hDc⟩ := h1 j
    by_cases hj : j = s.dAppsCount + 1
    · have hUe : posVoters s j = ∅ := by
        ext v; simp [posVoters, h2 j v (by omega)]
      have hDe : negVoters s j = ∅ := by
        ext v; simp [negVoters, h2 j v (by omega)]
      rw [hU, hD, hcts, if_pos hj, hUe, hDe]
      simp
    · rw [hU, hD, hcts, if_neg hj]
      exact ⟨hUf, hDf, hUc, hDc⟩
  · intro j v hjgt
    rw [hcnt] at hjgt
    rw [huv]
    exact h2 j v (by omega)

/-- Both invariants hold in the initial state. -/
theorem appStore_initial_invariant :
    tallyConsistent initialState ∧ votesWithinRange initialState := by
  constructor
  · intro j
    have hU : posVoters initialState j = ∅ := by
      ext v; simp [posVoters, initialState]
    have hD : negVoters initialState j = ∅ := by
      ext v; simp [negVoters, initialState]
    rw [hU, hD]
    simp [initialState, zeroDApp]
  · intro j v _
    rfl

/-- Every reachable state satisfies both invariants. -/
theorem appStore_reach_invariant (s : State) (hr : Reach s) :
    tallyConsistent s ∧ votesWithinRange s := by
  induction hr with
  | init => exact appStore_initial_invariant
  | stepRegister s s' sender n d r e cs _ h ih =>
    exact registerDApp_preserves_tally s s' sender n d r e cs h ih.1 ih.2
  | stepVote s s' sender _dAppId vt _ h ih =>
    exact voteForDApp_preserves_tally s s' sender _dAppId vt h ih.1 ih.2

end SintropAppStore

namespace HumansPeaceTreaty

/-- A successful `signPeacePledge` adds exactly the (previously unsigned)
caller to the signer set and increments `totalSignatures`. -/
theorem signPeacePledge_preserves_count (s s' : State) (sender bn : Nat)
    (h : signPeacePledge s sender bn = .ok s')
    (h1 : (signers s).Finite) (h2 : s.totalSignatures = (signers s).ncard) :
    (signers s').Finite ∧ s'.totalSignatures = (signers s').ncard := by
  unfold signPeacePledge at h
  split at h
  · exact absurd h (by simp)
  case isFalse hns =>
  simp only [Except.ok.injEq] at h
  have hpl : ∀ a, s'.pledges a =
      if a = sender then ⟨true, bn⟩ else s.pledges a := fun a => by rw [← h]
  have htot : s'.totalSignatures = s.totalSignatures + 1 := by rw [← h]
  have hset : signers s' = insert sender (signers s) := by
    ext a; by_cases ha : a = sender <;> simp [signers, hpl, ha]
  have hsnot : sender ∉ signers s := by
    simp only [signers, Set.mem_setOf_eq]; exact hns
  refine ⟨?_, ?_⟩
  · rw [hset]; exact h1.insert sender
  · rw [hset, htot, Set.ncard_insert_of_not_mem hsnot h1, h2]

/-- A successful `proveCommitment` changes no `hasSigned` flag and leaves
`totalSignatures` unchanged. -/
theorem proveCommitment_preserves_flags (s s' : State) (sender bn : Nat)
    (h : proveCommitment s sender bn = .ok s') :
    (∀ a, (s'.pledges a).hasSigned = (s.pledges a).hasSigned) ∧
    s'.totalSignatures = s.totalSignatures := by
  unfold proveCommitment at h
  split at h
  · exact absurd h (by simp)
  simp only [Except.ok.injEq] at h
  constructor
  · intro a
    rw [← h]
    by_cases ha : a = sender <;> simp [ha]
  · rw [← h]

/-- Every reachable state has a finite signer set counted exactly by
`totalSignatures`. -/
theorem treaty_reach_invariant (s : State) (hr : Reach s) :
    (signers s).Finite ∧ s.totalSignatures = (signers s).ncard := by
  induction hr with
  | init =>
    have hempty : signers initialState = ∅ := by
      ext a; simp [signers, initialState, zeroSignature]
    constructor
    · rw [hempty]; exact Set.finite_empty
    · rw [hempty]; simp [initialState]
  | stepSign s s' sender bn _ h ih =>
    exact signPeacePledge_preserves_count s s' sender bn h ih.1 ih.2
  | stepProve s s' sender bn _ h ih =>
    obtain ⟨hflags, htot⟩ := proveCommitment_preserves_flags s s' sender bn h
    have hset : signers s' = signers s := by
      ext a; simp [signers, hflags a]
    rw [hset, htot]
    exact ih

end HumansPeaceTreaty

namespace RcTestReward

/-- A successful `submitAuditReport` preserves the report invariant. -/
theorem submitAuditReport_preserves_report (s s' : State) (sender bn tc : Nat) (d hsh : String)
    (h : submitAuditReport s sender bn tc d hsh = .ok s')
    (h1 : reportInvariant s) : reportInvariant s' := by
  unfold submitAuditReport at h
  split at h
  · exact absurd h (by simp)
  split at h
  · exact absurd h (by simp)
  case isFalse hsub =>
  split at h
  · exact absurd h (by simp)
  case isFalse htc0 =>
  split at h
  · exact absurd h (by simp)
  case isFalse htcM =>
  simp only [Except.ok.injEq] at h
  have hrep : ∀ a, s'.auditReports a =
      if a = sender then ⟨tc, d, hsh, sender, bn⟩ else s.auditReports a :=
    fun a => by rw [← h]
  have hflag : ∀ a, s'.hasSubmittedReport a =
      if a = sender then true else s.hasSubmittedReport a :=
    fun a => by rw [← h]
  intro a
  by_cases ha : a = sender
  · right
    rw [hrep, hflag, if_pos ha, if_pos ha]
    push_neg at htc0 htcM
    exact ⟨rfl, htc0, htcM⟩
  · rw [hrep, hflag, if_neg ha, if_neg ha]
    exact h1 a

/-- Every reachable state satisfies the report invariant. -/
theorem rcReward_reach_invariant (s : State) (hr : Reach s) : reportInvariant s := by
  induction hr with
  | deploy deployBlock durationInBlocks =>
    intro a
    left
    exact ⟨rfl, rfl⟩
  | stepSubmit s s' sender bn tc d hsh _ h ih =>
    exact submitAuditReport_preserves_report s s' sender bn tc d hsh h ih

/-- After a successful submission the flag for the sender is set. -/
theorem submit_sets_flag (s s' : State) (sender bn tc : Nat) (d hsh : String)
    (h : submitAuditReport s sender bn tc d hsh = .ok s') :
    s'.hasSubmittedReport sender = true := by
  unfold submitAuditReport at h
  split at h
  · exact absurd h (by simp)
  split at h
  · exact absurd h (by simp)
  split at h
  · exact absurd h (by simp)
  split at h
  · exact absurd h (by simp)
  simp only [Except.ok.injEq] at h
  rw [← h]
  simp

/-- A submission by an address whose flag is already set reverts. -/
theorem submit_again_fails (s : State) (sender bn tc : Nat) (d hsh : String)
    (h : s.hasSubmittedReport sender = true) :
    ∃ e, submitAuditReport s sender bn tc d hsh = .error e := by
  unfold submitAuditReport
  by_cases hbn : ¬(bn ≤ s.endBlock)
  · rw [if_pos hbn]; exact ⟨_, rfl⟩
  · rw [if_neg hbn, if_pos h]; exact ⟨_, rfl⟩

end RcTestReward

/-! ### Claims -/

/-- Claim C1: after any sequence of successful insert and castVote calls
starting from the initial state, every record's upvote counter equals the
number of distinct voters whose currently stored vote is Upvote/Positive and
the downvote counter equals the number whose stored vote is
Downvote/Negative (education center and app store). -/
theorem C1_tally_consistency :
    (∀ s, FreeEducationCenter.Reach s → FreeEducationCenter.tallyConsistent s) ∧
    (∀ s, SintropAppStore.Reach s → SintropAppStore.tallyConsistent s) :=
  ⟨fun s hr => (FreeEducationCenter.reach_tally_invariant s hr).1,
   fun s hr => (SintropAppStore.appStore_reach_invariant s hr).1⟩

/-- Witness for C1 at concrete reachable states. -/
theorem C1_tally_consistency_witness :
    FreeEducationCenter.tallyConsistent fecOneVoted ∧
    SintropAppStore.tallyConsistent appOneVoted :=
  ⟨C1_tally_consistency.1 fecOneVoted
      (FreeEducationCenter.Reach.stepVote fecOne fecOneVoted 7 1
        FreeEducationCenter.VoteType.Upvote
        (FreeEducationCenter.Reach.stepAdd FreeEducationCenter.initialState
          fecOne 5 "Test" "Desc" "URL" "" FreeEducationCenter.Reach.init rfl)
        rfl),
   C1_tally_consistency.2 appOneVoted
      (SintropAppStore.Reach.stepVote appOne appOneVoted 7 1
        SintropAppStore.VoteType.Positive
        (SintropAppStore.Reach.stepRegister SintropAppStore.initialState
          appOne 5 "Name" "Desc" "Repo" "Link" [11]
          SintropAppStore.Reach.init rfl)
        rfl)⟩

/-- Claim C2: for an existing record with zero tallies and a voter with no
stored vote, casting Upvote then Downvote leaves upvotes 0, downvotes 1,
and casting Downvote then Upvote leaves upvotes 1, downvotes 0. -/
theorem C2_swap_correctness (s : FreeEducationCenter.State)
    (sender _id : Nat)
    (h1 : 0 < _id) (h2 : _id ≤ s.contentsCount)
    (hu : (s.contents _id).upvotes = 0) (hd : (s.contents _id).downvotes = 0)
    (hn : s.userVotes _id sender = FreeEducationCenter.VoteType.None) :
    (∃ s1 s2,
      FreeEducationCenter.vote s sender _id FreeEducationCenter.VoteType.Upvote
        = .ok s1 ∧
      FreeEducationCenter.vote s1 sender _id FreeEducationCenter.VoteType.Downvote
        = .ok s2 ∧
      (s2.contents _id).upvotes = 0 ∧ (s2.contents _id).downvotes = 1) ∧
    (∃ s1 s2,
      FreeEducationCenter.vote s sender _id FreeEducationCenter.VoteType.Downvote
        = .ok s1 ∧
      FreeEducationCenter.vote s1 sender _id FreeEducationCenter.VoteType.Upvote
        = .ok s2 ∧
      (s2.contents _id).upvotes = 1 ∧ (s2.contents _id).downvotes = 0) := by
  have hc1 : ¬¬(_id > 0 ∧ _id ≤ s.contentsCount) := not_not_intro ⟨h1, h2⟩
  constructor
  · have e1 : FreeEducationCenter.vote s sender _id
        FreeEducationCenter.VoteType.Upvote = .ok
        { s with
          contents := fun i => if i = _id then
              { s.contents _id with upvotes := (s.contents _id).upvotes + 1 }
            else s.contents i
          userVotes := fun i v => if i = _id ∧ v = sender then
              FreeEducationCenter.VoteType.Upvote
            else s.userVotes i v
          events := s.events ++
            [FreeEducationCenter.Event.Voted _id sender
              FreeEducationCenter.VoteType.Upvote] } := by
      unfold FreeEducationCenter.vote
      rw [if_neg hc1, if_neg (not_not_intro (Or.inl rfl))]
      simp [hn, FreeEducationCenter.decrementPrevious]
    set s1 : FreeEducationCenter.State :=
        { s with
          contents := fun i => if i = _id then
              { s.contents _id with upvotes := (s.contents _id).upvotes + 1 }
            else s.contents i
          userVotes := fun i v => if i = _id ∧ v = sender then
              FreeEducationCenter.VoteType.Upvote
            else s.userVotes i v
          events := s.events ++
            [FreeEducationCenter.Event.Voted _id sender
              FreeEducationCenter.VoteType.Upvote] } with hs1
    have e2 : FreeEducationCenter.vote s1 sender _id
        FreeEducationCenter.VoteType.Downvote = .ok
        { s1 with
          contents := fun i => if i = _id then
              { s.contents _id with upvotes := (s.contents _id).upvotes,
                                    downvotes := (s.contents _id).downvotes + 1 }
            else s1.contents i
          userVotes := fun i v => if i = _id ∧ v = sender then
              FreeEducationCenter.VoteType.Downvote
            else s1.userVotes i v
          events := s1.events ++
            [FreeEducationCenter.Event.Voted _id sender
              FreeEducationCenter.VoteType.Downvote] } := by
      unfold FreeEducationCenter.vote
      rw [if_neg (not_not_intro ⟨h1, h2⟩), if_neg (not_not_intro (Or.inr rfl))]
      simp [hs1, FreeEducationCenter.decrementPrevious]
    refine ⟨_, _, e1, e2, ?_, ?_⟩ <;> simp [hu, hd]
  · have e1 : FreeEducationCenter.vote s sender _id
        FreeEducationCenter.VoteType.Downvote = .ok
        { s with
          contents := fun i => if i = _id then
              { s.contents _id with downvotes := (s.contents _id).downvotes + 1 }
            else s.contents i
          userVotes := fun i v => if i = _id ∧ v = sender then
              FreeEducationCenter.VoteType.Downvote
            else s.userVotes i v
          events := s.events ++
            [FreeEducationCenter.Event.Voted _id sender
              FreeEducationCenter.VoteType.Downvote] } := by
      unfold FreeEducationCenter.vote
      rw [if_neg hc1, if_neg (not_not_intro (Or.inr rfl))]
      simp [hn, FreeEducationCenter.decrementPrevious]
    set s1 : FreeEducationCenter.State :=
        { s with
          contents := fun i => if i = _id then
              { s.contents _id with downvotes := (s.contents _id).downvotes + 1 }
            else s.contents i
          userVotes := fun i v => if i = _id ∧ v = sender then
              FreeEducationCenter.VoteType.Downvote
            else s.userVotes i v
          events := s.events ++
            [FreeEducationCenter.Event.Voted _id sender
              FreeEducationCenter.VoteType.Downvote] } with hs1
    have e2 : FreeEducationCenter.vote s1 sender _id
        FreeEducationCenter.VoteType.Upvote = .ok
        { s1 with
          contents := fun i => if i = _id then
              { s.contents _id with upvotes := (s.contents _id).upvotes + 1,
                                    downvotes := (s.contents _id).downvotes }
            else s1.contents i
          userVotes := fun i v => if i = _id ∧ v = sender then
              FreeEducationCenter.VoteType.Upvote
            else s1.userVotes i v
          events := s1.events ++
            [FreeEducationCenter.Event.Voted _id sender
              FreeEducationCenter.VoteType.Upvote] } := by
      unfold FreeEducationCenter.vote
      rw [if_neg (not_not_intro ⟨h1, h2⟩), if_neg (not_not_intro (Or.inl rfl))]
      simp [hs1, FreeEducationCenter.decrementPrevious]
    refine ⟨_, _, e1, e2, ?_, ?_⟩ <;> simp [hu, hd]

/-- Witness for C2 at the concrete one-content state. -/
theorem C2_swap_correctness_witness :
    ((0 : Nat) < 1 ∧ 1 ≤ fecOne.contentsCount ∧
      (fecOne.contents 1).upvotes = 0 ∧ (fecOne.contents 1).downvotes = 0 ∧
      fecOne.userVotes 1 7 = FreeEducationCenter.VoteType.None) ∧
    ((∃ s1 s2,
      FreeEducationCenter.vote fecOne 7 1 FreeEducationCenter.VoteType.Upvote
        = .ok s1 ∧
      FreeEducationCenter.vote s1 7 1 FreeEducationCenter.VoteType.Downvote
        = .ok s2 ∧
      (s2.contents 1).upvotes = 0 ∧ (s2.contents 1).downvotes = 1) ∧
    (∃ s1 s2,
      FreeEducationCenter.vote fecOne 7 1 FreeEducationCenter.VoteType.Downvote
        = .ok s1 ∧
      FreeEducationCenter.vote s1 7 1 FreeEducationCenter.VoteType.Upvote
        = .ok s2 ∧
      (s2.contents 1).upvotes = 1 ∧ (s2.contents 1).downvotes = 0)) :=
  ⟨⟨by decide, by decide, by decide, by decide, by decide⟩,
   C2_swap_correctness fecOne 7 1 (by decide) (by decide) (by decide)
     (by decide) (by decide)⟩

/-- Claim C3: a repeated identical vote by the same voter on the same existing
record succeeds and returns the state unchanged (tallies, vote map and event
log identical, hence no notification) in the education-center, app-store and
voting-whitepaper variants. -/
theorem C3_idempotent_revote :
    (∀ (s : FreeEducationCenter.State) (sender _id : Nat)
       (vt : FreeEducationCenter.VoteType),
       0 < _id → _id ≤ s.contentsCount →
       (vt = FreeEducationCenter.VoteType.Upvote ∨
        vt = FreeEducationCenter.VoteType.Downvote) →
       s.userVotes _id sender = vt →
       FreeEducationCenter.vote s sender _id vt = .ok s) ∧
    (∀ (s : SintropAppStore.State) (sender _dAppId : Nat)
       (vt : SintropAppStore.VoteType),
       0 < _dAppId → _dAppId ≤ s.dAppsCount →
       (vt = SintropAppStore.VoteType.Positive ∨
        vt = SintropAppStore.VoteType.Negative) →
       s.dAppVotes _dAppId sender = vt →
       SintropAppStore.voteForDApp s sender _dAppId vt = .ok s) ∧
    (∀ (s : WhitepaperCenterVoting.State) (sender _id : Nat)
       (vt : WhitepaperCenterVoting.VoteType),
       0 < _id → _id ≤ s.whitepapersCount →
       (vt = WhitepaperCenterVoting.VoteType.Upvote ∨
        vt = WhitepaperCenterVoting.VoteType.Downvote) →
       s.userVotes _id sender = vt →
       WhitepaperCenterVoting.vote s sender _id vt = .ok s) := by
  refine ⟨?_, ?_, ?_⟩
  · intro s sender _id vt h1 h2 hvt h3
    unfold FreeEducationCenter.vote
    rw [if_neg (not_not_intro ⟨h1, h2⟩), if_neg (not_not_intro hvt)]
    simp [h3]
  · intro s sender _dAppId vt h1 h2 hvt h3
    unfold SintropAppStore.voteForDApp
    rw [if_neg (not_not_intro ⟨h1, h2⟩), if_neg (not_not_intro hvt)]
    simp [h3]
  · intro s sender _id vt h1 h2 hvt h3
    unfold WhitepaperCenterVoting.vote
    rw [if_neg (not_not_intro ⟨h1, h2⟩), if_neg (not_not_intro hvt)]
    simp [h3]

/-- Witness for C3 at concrete voted states in all three variants. -/
theorem C3_idempotent_revote_witness :
    (fecOneVoted.userVotes 1 7 = FreeEducationCenter.VoteType.Upvote ∧
      FreeEducationCenter.vote fecOneVoted 7 1
        FreeEducationCenter.VoteType.Upvote = .ok fecOneVoted) ∧
    (appOneVoted.dAppVotes 1 7 = SintropAppStore.VoteType.Positive ∧
      SintropAppStore.voteForDApp appOneVoted 7 1
        SintropAppStore.VoteType.Positive = .ok appOneVoted) ∧
    (wpcvOne.userVotes 1 7 = WhitepaperCenterVoting.VoteType.Upvote ∧
      WhitepaperCenterVoting.vote wpcvOne 7 1
        WhitepaperCenterVoting.VoteType.Upvote = .ok wpcvOne) :=
  ⟨⟨by decide,
    C3_idempotent_revote.1 fecOneVoted 7 1 FreeEducationCenter.VoteType.Upvote
      (by decide) (by decide) (Or.inl rfl) (by decide)⟩,
   ⟨by decide,
    C3_idempotent_revote.2.1 appOneVoted 7 1 SintropAppStore.VoteType.Positive
      (by decide) (by decide) (Or.inl rfl) (by decide)⟩,
   ⟨by decide,
    C3_idempotent_revote.2.2 wpcvOne 7 1 WhitepaperCenterVoting.VoteType.Upvote
      (by decide) (by decide) (Or.inl rfl) (by decide)⟩⟩

/-- Claim C4 (code-bug evidence): in GlobalPlantCatalog as implemented under
src/contracts, a repeated identical vote is a silent success with no state
change, not a rejection; the repo's own test suite instead expects the revert
"GPC: You have already cast this vote" on this exact input. -/
theorem C4_plantCatalog_revote_not_rejected :
    GlobalPlantCatalog.vote gpcVoted 1 0 GlobalPlantCatalog.VoteType.Upvote
      = .ok gpcVoted ∧
    (gpcVoted.plants 0).upvotes = 1 ∧
    gpcVoted.userVotes 0 1 = GlobalPlantCatalog.VoteType.Upvote :=
  ⟨rfl, rfl, rfl⟩

/-- Claim C5 counterexample: in the education center (base-1 ids) the id
equal to the current counter value IS assigned: after one insert the counter
is 1 and `getContent 1` succeeds instead of failing with NotFound, refuting
"fails for any id >= counter" for the base-1 variants. -/
theorem C5_get_at_counter_counterexample :
    fecOne.contentsCount = 1 ∧
    FreeEducationCenter.getContent fecOne 1 =
      .ok ⟨1, "Test", "Desc", "URL", "", 0, 0⟩ :=
  ⟨rfl, rfl⟩

/-- Claim C5 (amended): lookups fail with NotFound exactly on unassigned ids:
in the base-1 variants (education center, whitepaper center) for id 0 and any
id strictly above the counter; in the base-0 plant catalog for any id at or
above the counter. -/
theorem C5_out_of_range_lookup :
    (∀ (s : FreeEducationCenter.State) (_id : Nat),
      (∃ e, FreeEducationCenter.getContent s _id = .error e) ↔
        (_id = 0 ∨ s.contentsCount < _id)) ∧
    (∀ (s : WhitepaperCenter.State) (_id : Nat),
      (∃ e, WhitepaperCenter.getWhitepaper s _id = .error e) ↔
        (_id = 0 ∨ s.whitepapersCount < _id)) ∧
    (∀ (s : GlobalPlantCatalog.State) (_plantId : Nat),
      (∃ e, GlobalPlantCatalog.getPlant s _plantId = .error e) ↔
        s.nextPlantId ≤ _plantId) := by
  refine ⟨?_, ?_, ?_⟩
  · intro s i
    constructor
    · rintro ⟨e, he⟩
      unfold FreeEducationCenter.getContent at he
      by_cases hc : ¬(i > 0 ∧ i ≤ s.contentsCount)
      · omega
      · rw [if_neg hc] at he; exact absurd he (by simp)
    · intro hor
      unfold FreeEducationCenter.getContent
      rw [if_pos (by omega)]
      exact ⟨_, rfl⟩
  · intro s i
    constructor
    · rintro ⟨e, he⟩
      unfold WhitepaperCenter.getWhitepaper at he
      by_cases hc : ¬(i > 0 ∧ i ≤ s.whitepapersCount)
      · omega
      · rw [if_neg hc] at he; exact absurd he (by simp)
    · intro hor
      unfold WhitepaperCenter.getWhitepaper
      rw [if_pos (by omega)]
      exact ⟨_, rfl⟩
  · intro s i
    constructor
    · rintro ⟨e, he⟩
      unfold GlobalPlantCatalog.getPlant at he
      by_cases hc : ¬(i < s.nextPlantId)
      · omega
      · rw [if_neg hc] at he; exact absurd he (by simp)
    · intro hor
      unfold GlobalPlantCatalog.getPlant
      rw [if_pos (by omega)]
      exact ⟨_, rfl⟩

/-- Claim C6: failing operations revert with no state change: an insert with
an out-of-bounds field fails, a vote on a nonexistent id or with the `None`
category fails, a reverted call leaves the storage identical, and the id
assigned by the next successful insert is unaffected by the failed call. -/
theorem C6_atomic_rollback :
    (∀ (s : FreeEducationCenter.State) (c : FreeEducationCenter.Call) e,
       FreeEducationCenter.applyCall s c = .error e →
       FreeEducationCenter.runCall s c = s) ∧
    (∀ (s : FreeEducationCenter.State) (sender : Nat) (t d u p : String),
       (¬(bytesLen t > 0 ∧ bytesLen t < 50) ∨
        ¬(bytesLen d > 0 ∧ bytesLen d < 500) ∨
        ¬(bytesLen u > 0 ∧ bytesLen u < 200) ∨
        ¬(bytesLen p < 200)) →
       ∃ e, FreeEducationCenter.addContent s sender t d u p = .error e) ∧
    (∀ (s : FreeEducationCenter.State) (sender _id : Nat)
       (vt : FreeEducationCenter.VoteType),
       (¬(_id > 0 ∧ _id ≤ s.contentsCount) ∨
        vt = FreeEducationCenter.VoteType.None) →
       ∃ e, FreeEducationCenter.vote s sender _id vt = .error e) ∧
    (∀ (s : FreeEducationCenter.State) (c : FreeEducationCenter.Call) e
       (sender : Nat) (t d u p : String) s',
       FreeEducationCenter.applyCall s c = .error e →
       FreeEducationCenter.addContent s sender t d u p = .ok s' →
       FreeEducationCenter.addContent (FreeEducationCenter.runCall s c)
         sender t d u p = .ok s' ∧
       s'.contentsCount = s.contentsCount + 1) := by
  refine ⟨?_, ?_, ?_, ?_⟩
  · intro s c e h
    simp only [FreeEducationCenter.runCall, h]
  · intro s sender t d u p hbad
    unfold FreeEducationCenter.addContent
    by_cases ha : ¬(bytesLen t > 0 ∧ bytesLen t < 50)
    · rw [if_pos ha]; exact ⟨_, rfl⟩
    rw [if_neg ha]
    by_cases hb : ¬(bytesLen d > 0 ∧ bytesLen d < 500)
    · rw [if_pos hb]; exact ⟨_, rfl⟩
    rw [if_neg hb]
    by_cases hc : ¬(bytesLen u > 0 ∧ bytesLen u < 200)
    · rw [if_pos hc]; exact ⟨_, rfl⟩
    rw [if_neg hc]
    by_cases hp2 : ¬(bytesLen p < 200)
    · rw [if_pos hp2]; exact ⟨_, rfl⟩
    · rcases hbad with hx | hx | hx | hx
      exacts [absurd hx ha, absurd hx hb, absurd hx hc, absurd hx hp2]
  · intro s sender _id vt hbad
    unfold FreeEducationCenter.vote
    by_cases hi : ¬(_id > 0 ∧ _id ≤ s.contentsCount)
    · rw [if_pos hi]; exact ⟨_, rfl⟩
    · rw [if_neg hi]
      rcases hbad with hx | hx
      · exact absurd hx hi
      · subst hx
        rw [if_pos (by simp)]
        exact ⟨_, rfl⟩
  · intro s c e sender t d u p s' happly hadd
    have hrun : FreeEducationCenter.runCall s c = s := by
      simp only [FreeEducationCenter.runCall, happly]
    refine ⟨by rw [hrun]; exact hadd, ?_⟩
    unfold FreeEducationCenter.addContent at hadd
    split at hadd
    · exact absurd hadd (by simp)
    split at hadd
    · exact absurd hadd (by simp)
    split at hadd
    · exact absurd hadd (by simp)
    split at hadd
    · exact absurd hadd (by simp)
    simp only [Except.ok.injEq] at hadd
    rw [← hadd]

/-- Witness for C6: a failed vote on the empty registry, a failed insert with
an empty title, a rejected `None` vote, and the next insert still getting
id 1. -/
theorem C6_atomic_rollback_witness :
    FreeEducationCenter.applyCall FreeEducationCenter.initialState
      (FreeEducationCenter.Call.voteCall 7 1 FreeEducationCenter.VoteType.Upvote)
      = .error "FEC: Content ID does not exist" ∧
    FreeEducationCenter.runCall FreeEducationCenter.initialState
      (FreeEducationCenter.Call.voteCall 7 1 FreeEducationCenter.VoteType.Upvote)
      = FreeEducationCenter.initialState ∧
    (∃ e, FreeEducationCenter.addContent FreeEducationCenter.initialState 5
        "" "Desc" "URL" "" = .error e) ∧
    (∃ e, FreeEducationCenter.vote FreeEducationCenter.initialState 5 1
        FreeEducationCenter.VoteType.None = .error e) ∧
    (FreeEducationCenter.addContent
        (FreeEducationCenter.runCall FreeEducationCenter.initialState
          (FreeEducationCenter.Call.voteCall 7 1
            FreeEducationCenter.VoteType.Upvote)) 5 "Test" "Desc" "URL" ""
       = .ok fecOne ∧
     fecOne.contentsCount = FreeEducationCenter.initialState.contentsCount + 1) :=
  ⟨rfl,
   C6_atomic_rollback.1 FreeEducationCenter.initialState
     (FreeEducationCenter.Call.voteCall 7 1 FreeEducationCenter.VoteType.Upvote)
     "FEC: Content ID does not exist" rfl,
   C6_atomic_rollback.2.1 FreeEducationCenter.initialState 5 "" "Desc" "URL" ""
     (Or.inl (by decide)),
   C6_atomic_rollback.2.2.1 FreeEducationCenter.initialState 5 1
     FreeEducationCenter.VoteType.None (Or.inr rfl),
   C6_atomic_rollback.2.2.2 FreeEducationCenter.initialState
     (FreeEducationCenter.Call.voteCall 7 1 FreeEducationCenter.VoteType.Upvote)
     "FEC: Content ID does not exist" 5 "Test" "Desc" "URL" "" fecOne rfl rfl⟩

/-- Claim C7: the majority predicates fail with NotFound on nonexistent
records and otherwise return exactly `upvotes > downvotes` (strict), in
particular `false` on ties. -/
theorem C7_strict_majority :
    (∀ (s : FreeEducationCenter.State) (_id : Nat),
      (¬(_id > 0 ∧ _id ≤ s.contentsCount) →
        ∃ e, FreeEducationCenter.hasMoreUpvotes s _id = .error e) ∧
      ((_id > 0 ∧ _id ≤ s.contentsCount) →
        (FreeEducationCenter.hasMoreUpvotes s _id = .ok true ↔
          (s.contents _id).downvotes < (s.contents _id).upvotes) ∧
        ((s.contents _id).upvotes = (s.contents _id).downvotes →
          FreeEducationCenter.hasMoreUpvotes s _id = .ok false))) ∧
    (∀ (s : SintropAppStore.State) (_dAppId : Nat),
      (¬(_dAppId > 0 ∧ _dAppId ≤ s.dAppsCount) →
        ∃ e, SintropAppStore.isDAppSustainable s _dAppId = .error e) ∧
      ((_dAppId > 0 ∧ _dAppId ≤ s.dAppsCount) →
        (SintropAppStore.isDAppSustainable s _dAppId = .ok true ↔
          (s.dApps _dAppId).negativeVotes < (s.dApps _dAppId).positiveVotes) ∧
        ((s.dApps _dAppId).positiveVotes = (s.dApps _dAppId).negativeVotes →
          SintropAppStore.isDAppSustainable s _dAppId = .ok false))) := by
  constructor
  · intro s i
    constructor
    · intro hbad
      unfold FreeEducationCenter.hasMoreUpvotes
      rw [if_pos hbad]; exact ⟨_, rfl⟩
    · intro hok
      constructor
      · unfold FreeEducationCenter.hasMoreUpvotes
        rw [if_neg (not_not_intro hok)]
        simp
      · intro hEq
        unfold FreeEducationCenter.hasMoreUpvotes
        rw [if_neg (not_not_intro hok)]
        simp [hEq]
  · intro s i
    constructor
    · intro hbad
      unfold SintropAppStore.isDAppSustainable
      rw [if_pos hbad]; exact ⟨_, rfl⟩
    · intro hok
      constructor
      · unfold SintropAppStore.isDAppSustainable
        rw [if_neg (not_not_intro hok)]
        simp
      · intro hEq
        unfold SintropAppStore.isDAppSustainable
        rw [if_neg (not_not_intro hok)]
        simp [hEq]

/-- Witness for C7: 0/0 tie on the concrete one-record states gives `false`;
a nonexistent id gives the NotFound error. -/
theorem C7_strict_majority_witness :
    ((1 : Nat) > 0 ∧ 1 ≤ fecOne.contentsCount) ∧
    (fecOne.contents 1).upvotes = (fecOne.contents 1).downvotes ∧
    FreeEducationCenter.hasMoreUpvotes fecOne 1 = .ok false ∧
    (∃ e, FreeEducationCenter.hasMoreUpvotes fecOne 99 = .error e) ∧
    SintropAppStore.isDAppSustainable appOne 1 = .ok false :=
  ⟨⟨by decide, by decide⟩, by decide,
   ((C7_strict_majority.1 fecOne 1).2 ⟨by decide, by decide⟩).2 (by decide),
   (C7_strict_majority.1 fecOne 99).1 (by decide),
   ((C7_strict_majority.2 appOne 1).2 ⟨by decide, by decide⟩).2 (by decide)⟩

/-- Claim C8: an insert whose fields satisfy the declared bounds succeeds,
assigns the next id, and a lookup at that id returns exactly the inserted
field values with both tallies zero. -/
theorem C8_insert_get_roundtrip (s : FreeEducationCenter.State) (sender : Nat)
    (t d u p : String)
    (ht : bytesLen t > 0 ∧ bytesLen t < 50)
    (hd : bytesLen d > 0 ∧ bytesLen d < 500)
    (hu : bytesLen u > 0 ∧ bytesLen u < 200)
    (hp : bytesLen p < 200) :
    ∃ s', FreeEducationCenter.addContent s sender t d u p = .ok s' ∧
      s'.contentsCount = s.contentsCount + 1 ∧
      FreeEducationCenter.getContent s' (s.contentsCount + 1) =
        .ok ⟨s.contentsCount + 1, t, d, u, p, 0, 0⟩ := by
  unfold FreeEducationCenter.addContent
  rw [if_neg (not_not_intro ht), if_neg (not_not_intro hd),
    if_neg (not_not_intro hu), if_neg (not_not_intro hp)]
  refine ⟨_, rfl, rfl, ?_⟩
  unfold FreeEducationCenter.getContent
  rw [if_neg (not_not_intro ⟨Nat.succ_pos _, Nat.le_refl _⟩)]
  simp

/-- Witness for C8 at the initial state with concrete valid fields. -/
theorem C8_insert_get_roundtrip_witness :
    ((bytesLen "Test" > 0 ∧ bytesLen "Test" < 50) ∧ bytesLen "" < 200) ∧
    (∃ s', FreeEducationCenter.addContent FreeEducationCenter.initialState 5
        "Test" "Desc" "URL" "" = .ok s' ∧
      s'.contentsCount = FreeEducationCenter.initialState.contentsCount + 1 ∧
      FreeEducationCenter.getContent s'
          (FreeEducationCenter.initialState.contentsCount + 1) =
        .ok ⟨FreeEducationCenter.initialState.contentsCount + 1,
          "Test", "Desc", "URL", "", 0, 0⟩) :=
  ⟨⟨by decide, by decide⟩,
   C8_insert_get_roundtrip FreeEducationCenter.initialState 5
     "Test" "Desc" "URL" "" (by decide) (by decide) (by decide) (by decide)⟩

/-- Claim C9: in every reachable HumansPeaceTreaty state, `totalSignatures`
equals the number of distinct addresses with `hasSigned = true`;
`signPeacePledge` fails for a caller who already signed; and a successful
`proveCommitment` changes neither the `hasSigned` flags nor
`totalSignatures`. -/
theorem C9_signature_counter :
    (∀ s, HumansPeaceTreaty.Reach s →
       (HumansPeaceTreaty.signers s).Finite ∧
       s.totalSignatures = (HumansPeaceTreaty.signers s).ncard) ∧
    (∀ (s : HumansPeaceTreaty.State) (sender bn : Nat),
       (s.pledges sender).hasSigned = true →
       ∃ e, HumansPeaceTreaty.signPeacePledge s sender bn = .error e) ∧
    (∀ (s s' : HumansPeaceTreaty.State) (sender bn : Nat),
       HumansPeaceTreaty.proveCommitment s sender bn = .ok s' →
       (∀ a, (s'.pledges a).hasSigned = (s.pledges a).hasSigned) ∧
       s'.totalSignatures = s.totalSignatures) := by
  refine ⟨HumansPeaceTreaty.treaty_reach_invariant, ?_, ?_⟩
  · intro s sender bn hsigned
    unfold HumansPeaceTreaty.signPeacePledge
    rw [if_pos hsigned]
    exact ⟨_, rfl⟩
  · intro s s' sender bn h
    exact HumansPeaceTreaty.proveCommitment_preserves_flags s s' sender bn h

/-- Witness for C9 at the concrete one-signer state. -/
theorem C9_signature_counter_witness :
    (hptOne.pledges 7).hasSigned = true ∧
    hptOne.totalSignatures = (HumansPeaceTreaty.signers hptOne).ncard ∧
    (∃ e, HumansPeaceTreaty.signPeacePledge hptOne 7 6 = .error e) ∧
    HumansPeaceTreaty.proveCommitment hptOne 7 9 = .ok hptProved ∧
    (hptProved.pledges 7).hasSigned = (hptOne.pledges 7).hasSigned ∧
    hptProved.totalSignatures = hptOne.totalSignatures :=
  ⟨by decide,
   (C9_signature_counter.1 hptOne
     (HumansPeaceTreaty.Reach.stepSign HumansPeaceTreaty.initialState hptOne
       7 5 HumansPeaceTreaty.Reach.init rfl)).2,
   C9_signature_counter.2.1 hptOne 7 6 (by decide),
   rfl,
   (C9_signature_counter.2.2 hptOne hptProved 7 9 rfl).1 7,
   (C9_signature_counter.2.2 hptOne hptProved 7 9 rfl).2⟩

/-- Claim C10: in every reachable RcTestReward state every stored
transaction count is 0 (no report) or in 1..1000, `getOwedTokens` is the
count times 100 and never exceeds 100000, and a second submission by the
same address fails leaving the stored report unchanged. -/
theorem C10_bounded_reward :
    (∀ s, RcTestReward.Reach s → ∀ a,
       (s.auditReports a).transactionCount = 0 ∨
       (1 ≤ (s.auditReports a).transactionCount ∧
        (s.auditReports a).transactionCount ≤ 1000)) ∧
    (∀ (s : RcTestReward.State) (a : Nat),
       RcTestReward.getOwedTokens s a =
         (s.auditReports a).transactionCount * 100) ∧
    (∀ s, RcTestReward.Reach s → ∀ a,
       RcTestReward.getOwedTokens s a ≤ 100000) ∧
    (∀ (s s' : RcTestReward.State) (sender bn tc : Nat) (d h : String),
       RcTestReward.submitAuditReport s sender bn tc d h = .ok s' →
       ∀ (bn2 tc2 : Nat) (d2 h2 : String),
         (∃ e, RcTestReward.submitAuditReport s' sender bn2 tc2 d2 h2
            = .error e) ∧
         RcTestReward.runSubmit s' sender bn2 tc2 d2 h2 = s') := by
  have hbound : ∀ s, RcTestReward.Reach s → ∀ a,
      (s.auditReports a).transactionCount = 0 ∨
      (1 ≤ (s.auditReports a).transactionCount ∧
       (s.auditReports a).transactionCount ≤ 1000) := by
    intro s hr a
    rcases RcTestReward.rcReward_reach_invariant s hr a with ⟨_, hz⟩ | ⟨_, h1, h2⟩
    · left; rw [hz]; rfl
    · right; exact ⟨h1, h2⟩
  refine ⟨hbound, ?_, ?_, ?_⟩
  · intro s a; rfl
  · intro s hr a
    unfold RcTestReward.getOwedTokens RcTestReward.REWARD_PER_TRANSACTION
    rcases hbound s hr a with hz | ⟨_, hle⟩
    · rw [hz]; exact Nat.zero_le _
    · calc (s.auditReports a).transactionCount * 100 ≤ 1000 * 100 :=
            Nat.mul_le_mul_right 100 hle
        _ = 100000 := rfl
  · intro s s' sender bn tc d h hok bn2 tc2 d2 h2
    have hflag := RcTestReward.submit_sets_flag s s' sender bn tc d h hok
    obtain ⟨e, he⟩ :=
      RcTestReward.submit_again_fails s' sender bn2 tc2 d2 h2 hflag
    refine ⟨⟨e, he⟩, ?_⟩
    simp only [RcTestReward.runSubmit, he]

/-- Witness for C10 at the concrete one-report state. -/
theorem C10_bounded_reward_witness :
    RcTestReward.submitAuditReport rcDeployed 7 120 10 "summary" "hash"
      = .ok rcOne ∧
    ((rcOne.auditReports 7).transactionCount = 0 ∨
      (1 ≤ (rcOne.auditReports 7).transactionCount ∧
       (rcOne.auditReports 7).transactionCount ≤ 1000)) ∧
    RcTestReward.getOwedTokens rcOne 7 ≤ 100000 ∧
    (∃ e, RcTestReward.submitAuditReport rcOne 7 121 5 "x" "y" = .error e) ∧
    RcTestReward.runSubmit rcOne 7 121 5 "x" "y" = rcOne :=
  ⟨rfl,
   C10_bounded_reward.1 rcOne
     (RcTestReward.Reach.stepSubmit rcDeployed rcOne 7 120 10 "summary" "hash"
       (RcTestReward.Reach.deploy 100 50) rfl) 7,
   C10_bounded_reward.2.2.1 rcOne
     (RcTestReward.Reach.stepSubmit rcDeployed rcOne 7 120 10 "summary" "hash"
       (RcTestReward.Reach.deploy 100 50) rfl) 7,
   (C10_bounded_reward.2.2.2 rcDeployed rcOne 7 120 10 "summary" "hash" rfl
     121 5 "x" "y").1,
   (C10_bounded_reward.2.2.2 rcDeployed rcOne 7 120 10 "summary" "hash" rfl
     121 5 "x" "y").2⟩
